import Mathlib

/-!
Verification of the live-trading engine core of the `daft-quant` repository
(`src/live_trading/engine.py`, class `LiveTradeEngine`).

The Python code is shallowly embedded: prices, cash and epoch timestamps are
modelled as rationals (the code only compares, multiplies and divides them);
position volumes and order quantities as integers; the effects of the decision
path (`_handle_signal`) are recorded as an explicit trace of gateway calls,
order submissions and warning logs (the textual content of the log messages is
observability only and is not modelled); fallible processing returns `Except`.
The market-data callback (`_on_market_data`) is modelled as a total function
over a list of per-symbol payloads, mirroring its `for`-loop with the
per-update `try/except` boundary.
-/

namespace LiveTradeEngine

/-- A position snapshot as returned by `order_manager.get_positions()`:
the engine reads `p.stock_code` and `p.volume`. -/
structure Position where
  stock_code : String
  volume : ℤ
deriving DecidableEq, Repr

/-- An asset snapshot as returned by `order_manager.get_asset()`:
the engine reads `asset.cash` in the decision path. -/
structure Asset where
  cash : ℚ
  market_value : ℚ
  total_asset : ℚ
deriving DecidableEq, Repr

/-- The gateway state visible to one decision: the fresh position list and
asset snapshot that `get_positions()` / `get_asset()` would return. -/
structure Gateway where
  positions : List Position
  asset : Asset
deriving DecidableEq, Repr

/-- One observable effect of the decision path, in order of occurrence:
a gateway read, an order submission, or a warning log line. -/
inductive Effect where
  | getPositions
  | getAsset
  | buyOrder (symbol : String) (price : ℚ) (qty : ℤ) (tag : String)
  | sellOrder (symbol : String) (price : ℚ) (qty : ℤ) (tag : String)
  | logWarning
deriving DecidableEq, Repr

/-- `position_map = {p.stock_code: p.volume for p in positions}` followed by
`position_map.get(symbol, 0)`: a Python dict comprehension keeps the LAST
entry for a repeated key, so the fold lets later positions overwrite. -/
def currentPos (positions : List Position) (symbol : String) : ℤ :=
  (positions.foldl
    (fun m p => if p.stock_code = symbol then Option.some p.volume else m)
    Option.none).getD 0

/-- Embedding of `LiveTradeEngine._handle_signal(symbol, signal, price)`
(engine.py lines 207-238), returning the trace of its effects. -/
def handle_signal (gw : Gateway) (symbol : String) (signal : String)
    (price : ℚ) : List Effect :=
  if signal = "hold" then []
  else
    -- positions then asset are fetched fresh, in this order
    let reads : List Effect := [Effect.getPositions, Effect.getAsset]
    let current_pos := currentPos gw.positions symbol
    let available_cash := gw.asset.cash
    if signal = "buy" then
      let cost := price * 100
      if available_cash > cost then
        reads ++ [Effect.buyOrder symbol price 100 "LiveStrategy"]
      else
        reads ++ [Effect.logWarning]
    else if signal = "sell" then
      if current_pos > 0 then
        reads ++ [Effect.sellOrder symbol price current_pos "LiveStrategy"]
      else
        reads ++ [Effect.logWarning]
    else
      reads

/-- The canonical bar record built by `_on_market_data`.  `datetime` is kept
as the epoch-seconds value handed to `datetime.fromtimestamp` (the wrapping
into a calendar datetime is injective and not modelled further).  In the
tick branch the `open`/`high`/`low`/`volume` fields come from `dict.get` and
may be absent (`None`), hence `Option`. -/
structure Bar where
  datetime : ℚ
  open' : Option ℚ
  high : Option ℚ
  low : Option ℚ
  close : ℚ
  volume : Option ℚ
deriving DecidableEq, Repr

/-- The shapes of a raw per-symbol payload that `_on_market_data` can
receive: Python `None`, the integer `0`, a list of bar rows, a tick dict
(fields read by name via `.get`), or any other unrecognized shape. -/
inductive Payload where
  | pyNone
  | pyZero
  | bars (rows : List (List ℚ))
  | tick (time : Option ℚ) (lastPrice : Option ℚ)
      (open' : Option ℚ) (high : Option ℚ) (low : Option ℚ)
      (volume : Option ℚ)
  | other
deriving DecidableEq, Repr

/-- Embedding of the normalization part of `_on_market_data` for one symbol
(engine.py lines 144-196): the symbol-membership guard, the empty/invalid
skip, the list-shaped bar branch, the dict-shaped tick branch, and the
unknown-shape skip.  `now` is the wall clock in seconds (`time.time()`).
Returns `none` when the payload is skipped. -/
def normalizePayload (symbols : List String) (symbol : String) (p : Payload)
    (now : ℚ) : Option Bar :=
  if symbol ∉ symbols then Option.none
  else
    match p with
    | Payload.pyNone => Option.none
    | Payload.pyZero => Option.none
    | Payload.bars rows =>
      match rows.getLast? with
      | Option.none => Option.none
      | Option.some latest_bar =>
        if latest_bar.length < 6 then Option.none
        else
          let timestamp := (latest_bar.get? 0).getD 0
          Option.some
            { datetime :=
                if timestamp > 10000000000 then timestamp / 1000
                else timestamp
              open' := Option.some ((latest_bar.get? 1).getD 0)
              high := Option.some ((latest_bar.get? 2).getD 0)
              low := Option.some ((latest_bar.get? 3).getD 0)
              close := (latest_bar.get? 4).getD 0
              volume := Option.some ((latest_bar.get? 5).getD 0) }
    | Payload.tick t lp o h l v =>
      match lp with
      | Option.none => Option.none
      | Option.some current_price =>
        if current_price = 0 then Option.none
        else
          Option.some
            { datetime := (t.getD (now * 1000)) / 1000
              open' := o
              high := h
              low := l
              close := current_price
              volume := v }
    | Payload.other => Option.none

/-- One symbol's update inside the per-update `try` block: normalize, call
`strategy.on_bar(bar)` (which may raise), then run the decision path at the
bar's close price.  An `Except.error` is an exception reaching the
per-update `except` boundary. -/
def tryProcessUpdate (strat : Bar → Except String String)
    (symbols : List String) (symbol : String) (p : Payload) (now : ℚ)
    (gw : Gateway) : Except String (List Effect) :=
  match normalizePayload symbols symbol p now with
  | Option.none => Except.ok []
  | Option.some bar =>
    match strat bar with
    | Except.error e => Except.error e
    | Except.ok signal => Except.ok (handle_signal gw symbol signal bar.close)

/-- Embedding of the `for symbol, tick_data in data.items()` loop of
`_on_market_data`: each update is processed inside its own `try/except`; an
exception is caught and logged and the loop continues with the next update.
The result is the concatenated effect trace of the successful updates. -/
def on_market_data (strat : Bar → Except String String)
    (symbols : List String) (updates : List (String × Payload)) (now : ℚ)
    (gw : Gateway) : List Effect :=
  match updates with
  | [] => []
  | (symbol, p) :: rest =>
    (match tryProcessUpdate strat symbols symbol p now gw with
     | Except.error _ => []
     | Except.ok effects => effects) ++
    on_market_data strat symbols rest now gw

/-- The engine-session state touched by `connect` / `start` / `stop`:
whether `self.xt_trader` is set, the `running` flag, the account/order-manager
setup, the market-data subscriptions, and invocation counters for
`strategy.on_stop()` and `xt_trader.stop()`. -/
structure EngineState where
  xtTrader : Bool
  running : Bool
  subscribedAccount : Bool
  orderManager : Bool
  subscribedSymbols : List String
  onStopCalls : ℕ
  traderStopCalls : ℕ
deriving DecidableEq, Repr

/-- Embedding of `LiveTradeEngine.connect()` (engine.py lines 59-89).
`r` is the result code returned by the gateway's `xt_trader.connect()`.
The trader object is created and started before the connect call, so
`xtTrader` is set even on failure; on a nonzero result the method returns
`False` without subscribing the account or creating the order manager. -/
def connect (r : ℤ) (s : EngineState) : Bool × EngineState :=
  let s1 := { s with xtTrader := true }
  if r = 0 then
    (true, { s1 with subscribedAccount := true, orderManager := true })
  else
    (false, s1)

/-- Embedding of `LiveTradeEngine.start()` (engine.py lines 91-107): if no
trader exists yet, `connect()` is attempted and a failure returns at once;
otherwise the running flag is set and every configured symbol is
subscribed.  The keep-alive loop does not change this state. -/
def start (r : ℤ) (symbols : List String) (s : EngineState) : EngineState :=
  if s.xtTrader then
    { s with running := true,
             subscribedSymbols := s.subscribedSymbols ++ symbols }
  else
    match connect r s with
    | (false, s1) => s1
    | (true, s1) =>
      { s1 with running := true,
                subscribedSymbols := s1.subscribedSymbols ++ symbols }

/-- Embedding of `LiveTradeEngine.stop()` (engine.py lines 116-124): clears
the running flag, calls `strategy.on_stop()` unconditionally, and calls
`xt_trader.stop()` when a trader exists.  It is a total function: no call
sequence makes it raise. -/
def stop (s : EngineState) : EngineState :=
  { s with running := false,
           onStopCalls := s.onStopCalls + 1,
           traderStopCalls :=
             if s.xtTrader then s.traderStopCalls + 1
             else s.traderStopCalls }

/-- C1: for a buy signal the engine fetches positions and cash fresh and
submits exactly one order of fixed quantity 100 at the given price if and
only if the fetched cash is strictly greater than `price * 100`; when cash
is less than or equal to the cost it submits no order and logs a warning
(in particular, cash exactly equal to the cost submits nothing). -/
theorem buy_signal_trace : ∀ (gw : Gateway) (symbol : String) (price : ℚ),
    handle_signal gw symbol "buy" price =
      [Effect.getPositions, Effect.getAsset] ++
        (if gw.asset.cash > price * 100
         then [Effect.buyOrder symbol price 100 "LiveStrategy"]
         else [Effect.logWarning]) := by
  intro gw symbol price
  simp [handle_signal]
  split_ifs <;> rfl

/-- Helper: a fold that only replaces the accumulator on a matching stock
code leaves it unchanged when no position matches. -/
theorem foldl_keeps_acc (symbol : String) :
    ∀ (l : List Position) (acc : Option ℤ),
      (∀ p ∈ l, p.stock_code ≠ symbol) →
      l.foldl
        (fun m p => if p.stock_code = symbol then Option.some p.volume else m)
        acc = acc := by
  intro l
  induction l with
  | nil => intro acc _; rfl
  | cons p rest ih =>
    intro acc hall
    have hp : p.stock_code ≠ symbol := hall p (List.mem_cons_self p rest)
    simp only [List.foldl_cons, if_neg hp]
    exact ih acc fun q hq => hall q (List.mem_cons_of_mem p hq)

/-- C2: for a sell signal the engine fetches positions and cash fresh and,
if the freshly fetched position volume for the symbol is strictly positive,
submits exactly one sell order for that entire volume; if the volume is not
positive it submits no order and logs a warning, and a symbol with no
position entry at all has volume 0 and therefore submits nothing. -/
theorem sell_signal_trace : ∀ (gw : Gateway) (symbol : String) (price : ℚ),
    (handle_signal gw symbol "sell" price =
      [Effect.getPositions, Effect.getAsset] ++
        (if 0 < currentPos gw.positions symbol
         then [Effect.sellOrder symbol price (currentPos gw.positions symbol)
                 "LiveStrategy"]
         else [Effect.logWarning])) ∧
    ((∀ p ∈ gw.positions, p.stock_code ≠ symbol) →
      currentPos gw.positions symbol = 0) := by
  intro gw symbol price
  constructor
  · simp [handle_signal]
    split_ifs <;> rfl
  · intro hnone
    simp [currentPos, foldl_keeps_acc symbol gw.positions Option.none hnone]

/-- C2 witness: a gateway holding only a position in "B" makes a sell signal
for "A" produce the two reads and a warning, no order. -/
theorem sell_signal_trace_witness :
    (handle_signal ⟨[⟨"B", 5⟩], ⟨0, 0, 0⟩⟩ "A" "sell" 3 =
      [Effect.getPositions, Effect.getAsset] ++
        (if 0 < currentPos [⟨"B", 5⟩] "A"
         then [Effect.sellOrder "A" 3 (currentPos [⟨"B", 5⟩] "A")
                 "LiveStrategy"]
         else [Effect.logWarning])) ∧
    currentPos [⟨"B", 5⟩] "A" = 0 :=
  ⟨(sell_signal_trace ⟨[⟨"B", 5⟩], ⟨0, 0, 0⟩⟩ "A" 3).1,
   (sell_signal_trace ⟨[⟨"B", 5⟩], ⟨0, 0, 0⟩⟩ "A" 3).2 (by decide)⟩

/-- C3 counterexample: calling `stop` twice from a connected running state
invokes the strategy's `on_stop` twice, not exactly once, because `stop`
calls `strategy.on_stop()` unconditionally on every invocation. -/
theorem stop_twice_counterexample :
    (stop (stop { xtTrader := true, running := true,
                  subscribedAccount := true, orderManager := true,
                  subscribedSymbols := ["A"], onStopCalls := 0,
                  traderStopCalls := 0 })).onStopCalls ≠ 1 := by
  decide

/-- C3 amended: calling `stop` twice in sequence produces no error (`stop`
is a total function on every engine state) and invokes the strategy's
`on_stop` exactly once per call, hence exactly twice across the two calls,
leaving the running flag cleared. -/
theorem stop_twice_behavior : ∀ s : EngineState,
    (stop (stop s)).running = false ∧
    (stop (stop s)).onStopCalls = s.onStopCalls + 2 := by
  intro s
  constructor
  · rfl
  · simp [stop]

/-- Helper: the normalizer skips `None`, `0`, the empty list, and any
unrecognized payload shape. -/
theorem normalizePayload_none_cases (syms : List String) (sym : String)
    (now : ℚ) :
    normalizePayload syms sym Payload.pyNone now = Option.none ∧
    normalizePayload syms sym Payload.pyZero now = Option.none ∧
    normalizePayload syms sym (Payload.bars []) now = Option.none ∧
    normalizePayload syms sym Payload.other now = Option.none := by
  unfold normalizePayload
  refine ⟨?_, ?_, ?_, ?_⟩ <;> (split <;> rfl)

/-- Helper: a list-shaped payload whose last bar row has fewer than 6
fields is skipped by the normalizer. -/
theorem normalizePayload_short_row (syms : List String) (sym : String)
    (now : ℚ) (rows : List (List ℚ)) (row : List ℚ)
    (hlast : rows.getLast? = Option.some row) (hlen : row.length < 6) :
    normalizePayload syms sym (Payload.bars rows) now = Option.none := by
  unfold normalizePayload
  split
  · rfl
  · simp [hlast, hlen]

/-- C4: every malformed payload (`None`, `0`, empty list, last bar row with
fewer than 6 fields, or a shape that is neither list nor dict) is skipped:
no bar is produced, the strategy is never invoked (the result is the same
for every strategy, including one that always raises), and no exception
reaches the caller (the result is `Except.ok` with an empty effect trace). -/
theorem malformed_payload_skipped :
    ∀ (strat : Bar → Except String String) (syms : List String)
      (sym : String) (now : ℚ) (gw : Gateway),
    tryProcessUpdate strat syms sym Payload.pyNone now gw = Except.ok [] ∧
    tryProcessUpdate strat syms sym Payload.pyZero now gw = Except.ok [] ∧
    tryProcessUpdate strat syms sym (Payload.bars []) now gw = Except.ok [] ∧
    tryProcessUpdate strat syms sym Payload.other now gw = Except.ok [] ∧
    (∀ (rows : List (List ℚ)) (row : List ℚ),
      rows.getLast? = Option.some row → row.length < 6 →
      tryProcessUpdate strat syms sym (Payload.bars rows) now gw =
        Except.ok []) := by
  intro strat syms sym now gw
  obtain ⟨h1, h2, h3, h4⟩ := normalizePayload_none_cases syms sym now
  refine ⟨?_, ?_, ?_, ?_, ?_⟩
  · simp [tryProcessUpdate, h1]
  · simp [tryProcessUpdate, h2]
  · simp [tryProcessUpdate, h3]
  · simp [tryProcessUpdate, h4]
  · intro rows row hlast hlen
    simp [tryProcessUpdate,
      normalizePayload_short_row syms sym now rows row hlast hlen]

/-- C4 witness: a two-field bar row for a subscribed symbol is skipped
without error even under a strategy that would return a buy signal. -/
theorem malformed_payload_witness :
    tryProcessUpdate (fun _ => Except.ok "buy") ["A"] "A"
        (Payload.bars [[1, 2]]) 0 ⟨[], ⟨1000, 0, 0⟩⟩ = Except.ok [] :=
  (malformed_payload_skipped (fun _ => Except.ok "buy") ["A"] "A" 0
      ⟨[], ⟨1000, 0, 0⟩⟩).2.2.2.2 [[1, 2]] [1, 2] rfl (by decide)

/-- C5 counterexample: in a list-shaped payload a timestamp of exactly
1e10 is NOT treated as milliseconds: the code tests `timestamp > 1e10`
strictly, so the datetime is the timestamp itself, not `timestamp / 1000`. -/
theorem bar_ts_exact_1e10_counterexample :
    (normalizePayload ["A"] "A"
        (Payload.bars [[(10000000000 : ℚ), 1, 2, 3, 4, 5]]) 0).map
      Bar.datetime = Option.some 10000000000 ∧
    (10000000000 : ℚ) ≠ 10000000000 / 1000 := by
  constructor
  · decide
  · norm_num

/-- C5 amended: for every list-shaped payload the timestamp of the last
bar row is treated as milliseconds (datetime computed from
`timestamp / 1000`) exactly when it is STRICTLY greater than 1e10, and as
seconds otherwise; in particular the timestamp exactly 1e10 is treated as
seconds.  The remaining OHLCV fields are taken from the row positionally. -/
theorem bar_ts_unit_strict (syms : List String) (sym : String)
    (now ts o h l c v : ℚ) (extra : List ℚ) (rows : List (List ℚ))
    (hmem : sym ∈ syms)
    (hlast : rows.getLast? =
      Option.some (ts :: o :: h :: l :: c :: v :: extra)) :
    normalizePayload syms sym (Payload.bars rows) now =
      Option.some
        { datetime := if ts > 10000000000 then ts / 1000 else ts
          open' := Option.some o
          high := Option.some h
          low := Option.some l
          close := c
          volume := Option.some v } := by
  have hlen : ¬ ((ts :: o :: h :: l :: c :: v :: extra).length < 6) := by
    simp [List.length_cons]
  simp [normalizePayload, hmem, hlast, hlen]

/-- C5 witness: a millisecond timestamp strictly above 1e10 is divided by
1000. -/
theorem bar_ts_unit_strict_witness :
    normalizePayload ["A"] "A"
        (Payload.bars [[(1700000000000 : ℚ), 1, 2, 3, 4, 5]]) 0 =
      Option.some
        { datetime := 1700000000
          open' := Option.some 1
          high := Option.some 2
          low := Option.some 3
          close := 4
          volume := Option.some 5 } := by
  rw [bar_ts_unit_strict ["A"] "A" 0 1700000000000 1 2 3 4 5 []
    [[1700000000000, 1, 2, 3, 4, 5]] (by decide) rfl]
  norm_num

/-- C6 counterexample: in a map-shaped (tick) payload a `time` value of
1,700,000,000 — below 1e10 — is NOT treated as seconds: the code always
divides the tick time by 1000, so the datetime is 1,700,000. -/
theorem tick_time_counterexample :
    (normalizePayload ["A"] "A"
        (Payload.tick (Option.some 1700000000) (Option.some 3)
          Option.none Option.none Option.none Option.none) 0).map
      Bar.datetime = Option.some 1700000 ∧
    (1700000 : ℚ) ≠ 1700000000 := by
  constructor
  · simp [normalizePayload]
    norm_num
  · norm_num

/-- C6 amended: the magnitude rule is NOT applied to map-shaped payloads:
for every tick payload with a present `time` and a nonzero `lastPrice`, the
datetime is always `time / 1000` (milliseconds), whatever the magnitude of
`time`; the magnitude test exists only in the list-shaped branch. -/
theorem tick_time_always_ms (syms : List String) (sym : String)
    (t lp now : ℚ) (o h l v : Option ℚ)
    (hmem : sym ∈ syms) (hlp : lp ≠ 0) :
    normalizePayload syms sym
        (Payload.tick (Option.some t) (Option.some lp) o h l v) now =
      Option.some
        { datetime := t / 1000
          open' := o
          high := h
          low := l
          close := lp
          volume := v } := by
  unfold normalizePayload
  rw [if_neg (by simpa using hmem)]
  simp [hlp]

/-- C6 witness: a tick time of 1,700,000,000 (seconds magnitude) is still
divided by 1000. -/
theorem tick_time_always_ms_witness :
    normalizePayload ["A"] "A"
        (Payload.tick (Option.some 1700000000) (Option.some 3)
          Option.none Option.none Option.none Option.none) 0 =
      Option.some
        { datetime := 1700000
          open' := Option.none
          high := Option.none
          low := Option.none
          close := 3
          volume := Option.none } := by
  rw [tick_time_always_ms ["A"] "A" 1700000000 3 0
    Option.none Option.none Option.none Option.none (by decide) (by decide)]
  norm_num

/-- C7: if one symbol's update raises anywhere in the
normalize/strategy/decision path, the exception is caught at the per-update
boundary and processing of the remaining updates in the same payload is
exactly what it would have been without the failing update. -/
theorem failed_update_isolated (strat : Bar → Except String String)
    (syms : List String) (symbol : String) (p : Payload) (now : ℚ)
    (gw : Gateway) (e : String) (rest : List (String × Payload))
    (h : tryProcessUpdate strat syms symbol p now gw = Except.error e) :
    on_market_data strat syms ((symbol, p) :: rest) now gw =
      on_market_data strat syms rest now gw := by
  simp [on_market_data, h]

/-- C7 witness: a strategy that raises on the first bar (close 4) does not
prevent the second update from being processed. -/
theorem failed_update_witness :
    on_market_data
        (fun b => if b.close = 4 then Except.error "boom" else Except.ok "buy")
        ["A"]
        [("A", Payload.bars [[1, 2, 3, 4, 4, 6]]),
         ("A", Payload.bars [[1, 2, 3, 4, 5, 6]])] 0 ⟨[], ⟨1000, 0, 0⟩⟩ =
      on_market_data
        (fun b => if b.close = 4 then Except.error "boom" else Except.ok "buy")
        ["A"] [("A", Payload.bars [[1, 2, 3, 4, 5, 6]])] 0
        ⟨[], ⟨1000, 0, 0⟩⟩ :=
  failed_update_isolated
    (fun b => if b.close = 4 then Except.error "boom" else Except.ok "buy")
    ["A"] "A" (Payload.bars [[1, 2, 3, 4, 4, 6]]) 0 ⟨[], ⟨1000, 0, 0⟩⟩ "boom"
    [("A", Payload.bars [[1, 2, 3, 4, 5, 6]])] rfl

/-- C8: `connect` returns a failure indicator exactly when the gateway's
connect call returns a nonzero result code, and a `start` from a fresh
state (no trader yet) whose connect fails leaves the engine unchanged
except for the created trader object: the running flag is not set and no
market-data subscription is made, with no automatic retry. -/
theorem connect_start_on_failure (r : ℤ) (syms : List String)
    (s : EngineState) (hs : s.xtTrader = false) :
    ((connect r s).1 = false ↔ r ≠ 0) ∧
    (r ≠ 0 → start r syms s = { s with xtTrader := true }) := by
  constructor
  · unfold connect
    by_cases hr : r = 0 <;> simp [hr]
  · intro hr
    unfold start
    simp [hs, connect, hr]

/-- C8 witness: result code 1 on a fresh engine makes `connect` report
failure and `start` stop before subscribing or setting the running flag. -/
theorem connect_start_on_failure_witness :
    ((connect 1 ⟨false, false, false, false, [], 0, 0⟩).1 = false ↔
      (1 : ℤ) ≠ 0) ∧
    start 1 ["A"] ⟨false, false, false, false, [], 0, 0⟩ =
      ⟨true, false, false, false, [], 0, 0⟩ :=
  ⟨(connect_start_on_failure 1 ["A"] ⟨false, false, false, false, [], 0, 0⟩
      rfl).1,
   (connect_start_on_failure 1 ["A"] ⟨false, false, false, false, [], 0, 0⟩
      rfl).2 (by decide)⟩

/-- C9: a hold signal returns immediately: no gateway read, no order, no
warning — the effect trace is empty — and the decision path touches no
engine state by construction. -/
theorem hold_signal_no_effect : ∀ (gw : Gateway) (symbol : String)
    (price : ℚ),
    handle_signal gw symbol "hold" price = [] := by
  intro gw symbol price
  rfl

/-- C10: every non-hold signal first performs the fresh `get_positions` and
`get_asset` reads, in that order; a signal that is neither "buy" nor "sell"
then submits no order: the two reads are its entire effect trace. -/
theorem non_hold_signal_reads (gw : Gateway) (symbol signal : String)
    (price : ℚ) (h : signal ≠ "hold") :
    (handle_signal gw symbol signal price).take 2 =
        [Effect.getPositions, Effect.getAsset] ∧
    (signal ≠ "buy" → signal ≠ "sell" →
      handle_signal gw symbol signal price =
        [Effect.getPositions, Effect.getAsset]) := by
  constructor
  · simp only [handle_signal, if_neg h]
    split_ifs <;> rfl
  · intro hb hs
    simp only [handle_signal, if_neg h, if_neg hb, if_neg hs]

/-- C10 witness: the unrecognized signal "foo" performs the two reads and
nothing else. -/
theorem non_hold_signal_reads_witness :
    (handle_signal ⟨[], ⟨0, 0, 0⟩⟩ "A" "foo" 3).take 2 =
        [Effect.getPositions, Effect.getAsset] ∧
    handle_signal ⟨[], ⟨0, 0, 0⟩⟩ "A" "foo" 3 =
      [Effect.getPositions, Effect.getAsset] :=
  ⟨(non_hold_signal_reads ⟨[], ⟨0, 0, 0⟩⟩ "A" "foo" 3 (by decide)).1,
   (non_hold_signal_reads ⟨[], ⟨0, 0, 0⟩⟩ "A" "foo" 3 (by decide)).2
     (by decide) (by decide)⟩

end LiveTradeEngine
